import Mathlib

/-!
Verification development for `models_mae_cross.py` (class `SupervisedMAE`),
a class-agnostic counting model: image encoder, exemplar CNN encoder,
exemplar cross-attention aggregator, image-exemplar cross-attention decoder,
and a density regression head.

The embedding has three layers:
* a shape-level semantics that tracks tensor extents through the regression
  head and through the width-sensitive parts of `forward_decoder`
  (fallible ops return `Option`);
* a value-level dataflow semantics of `forward` / `forward_decoder`, with
  scalars in `ℚ` and the external submodule primitives (timm blocks,
  convolutions, layer norms, bilinear interpolation) held as opaque function
  fields of the model structure, while this file's own wiring (the shot
  loop, reshapes, permutes, the attention-derived gate, the weighted
  pooling and renormalization) is translated explicitly;
* a real-valued model of the `exemplar_weights` gate (4 linear layers
  followed by a sigmoid) for the positivity claims.
-/

/-- Constructor configuration of `SupervisedMAE.__init__` (line 19-22). -/
structure Config where
  img_size : ℕ
  patch_size : ℕ
  in_chans : ℕ
  embed_dim : ℕ
  depth : ℕ
  num_heads : ℕ
  decoder_embed_dim : ℕ
  decoder_depth : ℕ
  decoder_num_heads : ℕ
  mlp_ratio : ℚ
  cross_blocks : ℕ
  norm_pix_loss : Bool

/-- Source: `self.patch_embed.num_patches`: a `PatchEmbed(img_size, patch_size, ..)`
has `(img_size / patch_size)^2` patches (line 27-28). -/
def numPatchesCfg (cfg : Config) : ℕ := (cfg.img_size / cfg.patch_size) ^ 2

/-- The factory `mae_vit_base_patch16_dec512d8b` (lines 249-254):
patch 16, encoder 768/12/12, decoder 512/8/16, 4 exemplar cross blocks;
`img_size` keeps its default 384. -/
def mae_vit_base_patch16_dec512d8b : Config :=
  { img_size := 384, patch_size := 16, in_chans := 3, embed_dim := 768,
    depth := 12, num_heads := 12, decoder_embed_dim := 512, decoder_depth := 8,
    decoder_num_heads := 16, mlp_ratio := 4, cross_blocks := 4,
    norm_pix_loss := false }

/-! ## Shape-level semantics -/

/-- Spatial extent of a 2d convolution output: `(n + 2p - k) / s + 1`. -/
def convOut (n k st p : ℕ) : ℕ := (n + 2 * p - k) / st + 1

/-- A 4-dimensional tensor shape `(batch, channels, height, width)`. -/
structure Shape4 where
  b : ℕ
  c : ℕ
  h : ℕ
  w : ℕ
deriving DecidableEq

/-- Shape of `nn.Conv2d(cin, cout, kernel_size=k, stride=st, padding=p)`:
fails unless the input channel count matches `cin`. -/
def conv2dShape (cin cout k st p : ℕ) (s : Shape4) : Option Shape4 :=
  if s.c = cin then some ⟨s.b, cout, convOut s.h k st p, convOut s.w k st p⟩ else none

/-- Shape of `nn.GroupNorm(g, ch)`: the channel count must be `ch` and
divisible into `g` groups; the shape is preserved. -/
def groupNormShape (g ch : ℕ) (s : Shape4) : Option Shape4 :=
  if s.c = ch ∧ ch % g = 0 then some s else none

/-- Source: `F.interpolate(x, size=sz, mode=bilinear)`: both spatial dims become `sz`. -/
def interpolateShape (sz : ℕ) (s : Shape4) : Shape4 := ⟨s.b, s.c, sz, sz⟩

/-- Source: `self.decode_head0` (lines 100-104): Conv2d(decoder_embed_dim, 256, 3, 1, 1),
GroupNorm(8, 256), ReLU (shape-preserving). -/
def decodeHead0Shape (d : ℕ) (s : Shape4) : Option Shape4 :=
  (conv2dShape d 256 3 1 1 s).bind (groupNormShape 8 256)

/-- Source: `self.decode_head1` (lines 105-109). -/
def decodeHead1Shape (s : Shape4) : Option Shape4 :=
  (conv2dShape 256 256 3 1 1 s).bind (groupNormShape 8 256)

/-- Source: `self.decode_head2` (lines 110-114). -/
def decodeHead2Shape (s : Shape4) : Option Shape4 :=
  (conv2dShape 256 256 3 1 1 s).bind (groupNormShape 8 256)

/-- Source: `self.decode_head3` (lines 115-120): an extra Conv2d(256, 1, 1, 1)
collapsing to a single channel. -/
def decodeHead3Shape (s : Shape4) : Option Shape4 :=
  (((conv2dShape 256 256 3 1 1 s).bind (groupNormShape 8 256)).bind
    (conv2dShape 256 1 1 1 0))

/-- Source: `x.squeeze(-3)` on `(b, c, h, w)`: drops the channel dim iff it is 1. -/
def squeezeChannelShape (s : Shape4) : List ℕ :=
  if s.c = 1 then [s.b, s.h, s.w] else [s.b, s.c, s.h, s.w]

/-- Density regression head (lines 228-236): four stages, each
`F.interpolate(decode_head_i(x), size=x.shape[-1]*2, bilinear)`, i.e. the
target size is twice the spatial extent of the stage input, then
`squeeze(-3)`.  Exactly four 2x bilinear upsamplings. -/
def regressionHeadShape (d : ℕ) (s0 : Shape4) : Option (List ℕ) :=
  (decodeHead0Shape d s0).bind fun t1 =>
  let s1 := interpolateShape (s0.w * 2) t1
  (decodeHead1Shape s1).bind fun t2 =>
  let s2 := interpolateShape (s1.w * 2) t2
  (decodeHead2Shape s2).bind fun t3 =>
  let s3 := interpolateShape (s2.w * 2) t3
  (decodeHead3Shape s3).bind fun t4 =>
  some (squeezeChannelShape (interpolateShape (s3.w * 2) t4))

/-- Shape of `forward`'s result: the encoder yields `(B, num_patches,
embed_dim)` tokens, `decoder_embed` maps them to `decoder_embed_dim`
channels, lines 224-226 reshape them to a square spatial map of side
`int(sqrt(num_patches))`, and the regression head runs on that map. -/
def forwardShape (cfg : Config) (B : ℕ) : Option (List ℕ) :=
  regressionHeadShape cfg.decoder_embed_dim
    ⟨B, cfg.decoder_embed_dim, Nat.sqrt (numPatchesCfg cfg),
      Nat.sqrt (numPatchesCfg cfg)⟩

/-! ## Shape of the per-layer attention summary (line 201) -/

/-- Shape transformer for line 201:
`attn.permute(0,2,1,3)` turns `(B, H, Q, K)` into `(B, Q, H, K)`;
`.reshape(N, shot_num*8*8, H, shot_num, 8*8)` needs the element counts to
match; `.mean(dim=3)` drops the shot axis of the keys; `.flatten(2,3)`
merges the head axis with the 64 per-position scores.  The result (before
the `unsqueeze(0)` used for stacking layers) is `(B, S*64, H*64)`. -/
def attnSummaryShape (B H Q K S : ℕ) : Option (List ℕ) :=
  if B * Q * (H * K) = B * (S * 64) * (H * (S * 64)) then
    some [B, S * 64, H * 64]
  else none

/-! ## Width checker for `forward_decoder` (claim C9) -/

/-- Source: `self.shot_token = nn.Parameter(torch.zeros(512))` (line 46). -/
def shot_token_dim : ℕ := 512

/-- The `CrossAttentionBlock(512, ...)` width of `self.exemplar_blocks`
(line 86). -/
def exemplar_block_dim : ℕ := 512

/-- Source: `self.exemplar_norm = norm_layer(512)` (line 98). -/
def exemplar_norm_dim : ℕ := 512

/-- The hard-coded channel count in `y1.reshape(N*shot_num, 8, 8, 512)`
(line 205). -/
def pool_reshape_dim : ℕ := 512

/-- Source: `nn.Linear(inF, outF)` on the last axis: requires the input feature
count to equal `inF`. -/
def linearCheck (inF outF c : ℕ) : Option ℕ :=
  if c = inF then some outF else none

/-- Source: `nn.LayerNorm(f)` on the last axis. -/
def layerNormCheck (f c : ℕ) : Option ℕ :=
  if c = f then some c else none

/-- Channel check of `nn.Conv2d(cin, cout, ...)`. -/
def conv2dChanCheck (cin cout c : ℕ) : Option ℕ :=
  if c = cin then some cout else none

/-- Channel flow of the per-shot CNN chain (lines 187-191):
`decoder_proj1` 3→64, `decoder_proj2` 64→128, `decoder_proj3` 128→256,
`decoder_proj_final` 256→decoder_embed_dim. -/
def projChainCheck (d c : ℕ) : Option ℕ :=
  (conv2dChanCheck 3 64 c).bind fun c1 =>
  (conv2dChanCheck 64 128 c1).bind fun c2 =>
  (conv2dChanCheck 128 256 c2).bind fun c3 =>
  conv2dChanCheck 256 d c3

/-- Width/channel flow of `forward_decoder` (lines 170-221) for a model
built with decoder width `d`: tracks the channel extents that the
underlying tensor runtime checks, returning `none` where it would raise a
shape mismatch.
* `decoder_embed` is `Linear(embed_dim, d)` applied to encoder tokens;
* for `shot_num > 0` the per-shot CNN emits `d` channels, the exemplar
  cross-attention blocks are built at width `exemplar_block_dim = 512`
  (their qkv projections reject any other token width), `exemplar_norm`
  is `LayerNorm(512)`, the pooling path reshapes to channel
  `pool_reshape_dim = 512`, and line 212 reshapes the `(B*S, 512)` pooled
  tensor to `(S, B, C)` with `C = d`;
* for `shot_num = 0` the fallback `shot_token` has `shot_token_dim = 512`
  entries;
* the decoder `CrossAttentionBlock(d, ...)` (line 83) projects both its
  query tokens and its key/value tokens with `Linear(d, ...)`;
* `decode_head0` consumes `d` channels. -/
def forwardDecoderWidthCheck (embed_dim d B S : ℕ) : Option ℕ :=
  (linearCheck embed_dim d embed_dim).bind fun cx =>
  (if 0 < S then
      (projChainCheck d 3).bind fun c1 =>
      (linearCheck exemplar_block_dim exemplar_block_dim c1).bind fun c2 =>
      (layerNormCheck exemplar_norm_dim c2).bind fun c3 =>
      (if B * S * 64 * c3 = B * S * 64 * pool_reshape_dim
        then some pool_reshape_dim else none).bind fun cp =>
      (if B * S * cp = S * B * d then some d else none)
    else some shot_token_dim).bind fun cy =>
  (linearCheck d d cx).bind fun cq =>
  (linearCheck d d cy).bind fun _ =>
  conv2dChanCheck d 256 cq

/-! ## Value-level dataflow semantics

Tensors are total index functions into `ℚ`, zero-extended outside the
extent of the tensor they stand for.  Submodules whose internals live in
external libraries (timm `Block`/`PatchEmbed`, `CrossAttentionBlock`,
`nn.Conv2d`, norms, bilinear interpolation) are opaque function fields of
the model: each acts per batch item, which is faithful because none of
them mixes values across the batch axis (instance/layer/group norms are
per sample, attention mixes only tokens of one item).
-/

/-- A token sequence of one batch item: `(token, channel) ↦` value. -/
def TokT : Type := ℕ → ℕ → ℚ

/-- A `(channel, row, col)`-indexed spatial map of one batch item. -/
def ImgT : Type := ℕ → ℕ → ℕ → ℚ

/-- A raw attention score tensor of one batch item:
`(head, query, key) ↦` score. -/
def AttnT : Type := ℕ → ℕ → ℕ → ℚ

/-- The model state of `SupervisedMAE`: configuration scalars recorded at
construction, the frozen positional embeddings, the learned fallback
`shot_token`, and one opaque function per submodule built in `__init__`
(lines 27-120).  `decoder_proj4` is constructed (lines 67-73) like its
siblings. -/
structure SupervisedMAE where
  num_patches : ℕ
  decoder_depth : ℕ
  decoder_num_heads : ℕ
  pos_embed : ℕ → ℕ → ℚ
  decoder_pos_embed : ℕ → ℕ → ℚ
  shot_token : ℕ → ℚ
  patch_embed : ImgT → TokT
  blocks : List (TokT → TokT)
  norm : (ℕ → ℚ) → (ℕ → ℚ)
  decoder_embed : (ℕ → ℚ) → (ℕ → ℚ)
  decoder_proj1 : ImgT → ImgT
  decoder_proj2 : ImgT → ImgT
  decoder_proj3 : ImgT → ImgT
  decoder_proj4 : ImgT → ImgT
  decoder_proj_final : ImgT → ImgT
  decoder_blocks : List (TokT → TokT → TokT)
  exemplar_blocks : List (TokT → TokT × AttnT)
  exemplar_weights : (ℕ → ℚ) → ℚ
  decoder_norm : (ℕ → ℚ) → (ℕ → ℚ)
  exemplar_norm : (ℕ → ℚ) → (ℕ → ℚ)
  decode_head0 : ImgT → ImgT
  decode_head1 : ImgT → ImgT
  decode_head2 : ImgT → ImgT
  decode_head3 : ImgT → ImgT
  interp2x : ImgT → ImgT

/-- The per-shot CNN chain applied inside the loop (lines 187-191):
`decoder_proj1`, `decoder_proj2`, `decoder_proj3`, `decoder_proj_final`. -/
def projShot (m : SupervisedMAE) (im : ImgT) : ImgT :=
  m.decoder_proj_final (m.decoder_proj3 (m.decoder_proj2 (m.decoder_proj1 im)))

/-- The exemplar token sequence built from the shot loop and the
cat/permute/flatten of line 197.  The loop (lines 183-193) processes the
first `min shot_num M` shots of the `M` available ones (`cnt` breaks the
iteration over `y_` once it exceeds `shot_num`); `torch.cat` stacks the
processed `(B, C, 8, 8)` maps, `permute(1, 0, 3, 4, 2)` moves to
`(B, S, 8, 8, C)` and `flatten(1, 3)` yields `(B, S*64, C)` with token
index `s*64 + i*8 + j`.  `crops n s` is batch item `n`'s shot `s`
(`y_ = y_.transpose(0, 1)` at line 177 undoes the `(B, M, ...)` order). -/
def y1init (m : SupervisedMAE) (crops : ℕ → ℕ → ImgT) (M S : ℕ) : ℕ → TokT :=
  fun n t c =>
    if t < min S M * 64 then
      projShot m (crops n (t / 64)) c (t % 64 / 8) (t % 64 % 8)
    else 0

/-- The loop over `self.exemplar_blocks` (lines 199-201): each block maps
the running token sequence to a new one and a raw attention tensor; the
attention tensors are collected in order. -/
def blocksIter : List (TokT → TokT × AttnT) → TokT → TokT × List AttnT
  | [], y => (y, [])
  | blk :: rest, y =>
      let step := blk y
      let tail := blocksIter rest step.1
      (tail.1, step.2 :: tail.2)

/-- Token sequence after all exemplar cross-attention blocks. -/
def y1After (m : SupervisedMAE) (y0 : ℕ → TokT) : ℕ → TokT :=
  fun n => (blocksIter m.exemplar_blocks (y0 n)).1

/-- Attention tensors captured from the exemplar blocks, in layer order. -/
def y1Attns (m : SupervisedMAE) (y0 : ℕ → TokT) : ℕ → List AttnT :=
  fun n => (blocksIter m.exemplar_blocks (y0 n)).2

/-- The per-layer summary of line 201 for one batch item:
`attn.permute(0, 2, 1, 3).reshape(N, S*64, H, S, 64).mean(dim=3)
.flatten(2, 3)`.  Entry `(q, d)` with `d = h*64 + cell` is the mean over
the `S` shots of the scores from query `q` to the keys at spatial cell
`cell` of each shot; entries outside the `H*64` extent are zero. -/
def layerSummary (H S : ℕ) (a : AttnT) (q d : ℕ) : ℚ :=
  if d < H * 64 then
    (∑ sk ∈ Finset.range S, a (d / 64) q (sk * 64 + d % 64)) / (S : ℚ)
  else 0

/-- The per-token gate weight of line 203:
`self.exemplar_weights(torch.cat(attns, dim=0)).mean(dim=0)` — the gate is
applied to each layer's summary vector for token `q` and the results are
averaged over the layers. -/
def gateWeight (m : SupervisedMAE) (S : ℕ) (y0 : ℕ → TokT) (n q : ℕ) : ℚ :=
  (((y1Attns m y0 n).map
      (fun a => m.exemplar_weights (fun d => layerSummary m.decoder_num_heads S a q d))).sum)
    / ((y1Attns m y0 n).length : ℚ)

/-- Source: `y1 = self.exemplar_norm(y1)` (line 202), applied per token. -/
def normedY1 (m : SupervisedMAE) (y0 : ℕ → TokT) : ℕ → TokT :=
  fun n t c => m.exemplar_norm (fun c0 => y1After m y0 n t c0) c

/-- Source: `y1 = attns * y1` (line 204): the gate weight scales every channel of
its token. -/
def weightedY1 (m : SupervisedMAE) (S : ℕ) (y0 : ℕ → TokT) : ℕ → TokT :=
  fun n t c => gateWeight m S y0 n t * normedY1 m y0 n t c

/-- Source: `self.pool(y1.reshape(N*S, 8, 8, 512).permute(0, 3, 1, 2))` (line 205):
row `r` of the `(N*S, C)` pooled tensor collects batch item `r / S`,
shot `r % S`, and averages that shot's 64 grid cells.  The reshape of the
row-major `(N, S*64, C)` tensor sends row `r` and cell `cell` to token
`(r % S) * 64 + cell` of batch item `r / S`. -/
def pooledRow (m : SupervisedMAE) (S : ℕ) (y0 : ℕ → TokT) (r c : ℕ) : ℚ :=
  (∑ cell ∈ Finset.range 64, weightedY1 m S y0 (r / S) ((r % S) * 64 + cell) c) / 64

/-- Source: `attns.reshape(N*S, 8*8).sum(dim=1)` (line 206): the per-row sum of the
64 gate weights, with the same row convention as `pooledRow`. -/
def weightRowSum (m : SupervisedMAE) (S : ℕ) (y0 : ℕ → TokT) (r : ℕ) : ℚ :=
  ∑ cell ∈ Finset.range 64, gateWeight m S y0 (r / S) ((r % S) * 64 + cell)

/-- Source: `y1 = torch.mul(y1 * 8 * 8, attns)` with `attns = 1 / (row sums)`
(lines 206-207): the pooled row times 64 times the reciprocal row sum. -/
def renormRow (m : SupervisedMAE) (S : ℕ) (y0 : ℕ → TokT) (r c : ℕ) : ℚ :=
  pooledRow m S y0 r c * 64 * (1 / weightRowSum m S y0 r)

/-- The exemplar sequence `y` handed to the decoder blocks (lines 209-215).
For `shot_num > 0`, `y = y1.reshape(shot_num, N, C)` followed by
`transpose(0, 1)`: the entry at batch `n`, shot `s` is row `s*B + n` of
the flat `(N*S, C)` renormalized pooled tensor.  For `shot_num = 0`,
`y = self.shot_token.repeat(B, 1).unsqueeze(0)` transposed: one fallback
token per batch item (shot extent 1). -/
def exemplarY (m : SupervisedMAE) (crops : ℕ → ℕ → ImgT) (B M S : ℕ) :
    ℕ → ℕ → ℕ → ℚ :=
  if 0 < S then
    fun n s c =>
      if s < S then renormRow m S (y1init m crops M S) (s * B + n) c else 0
  else
    fun _n s c => if s < 1 then m.shot_token c else 0

/-- Lines 170-174 and 218-238 of `forward_decoder`: embed the encoder
tokens to decoder width, add the frozen decoder positional embedding, run
the `decoder_depth` cross-attention blocks against the exemplar sequence
`y`, normalize, reshape the tokens to a square map of side
`int(sqrt(num_patches))` (lines 224-226), apply the four regression-head
stages each followed by the 2x bilinear upsampling, and `squeeze(-3)` the
singleton channel. -/
def decoderTail (m : SupervisedMAE) (x : ℕ → TokT) (y : ℕ → ℕ → ℕ → ℚ) :
    ℕ → ℕ → ℕ → ℚ :=
  fun n i j =>
    let xe : TokT := fun t c =>
      m.decoder_embed (fun c0 => x n t c0) c + m.decoder_pos_embed t c
    let yn : TokT := fun s c => y n s c
    let xf : TokT :=
      ((m.decoder_blocks.take m.decoder_depth).foldl (fun acc blk => blk acc yn) xe)
    let xn : TokT := fun t c => m.decoder_norm (fun c0 => xf t c0) c
    let side := Nat.sqrt m.num_patches
    let x2 : ImgT := fun ch ii jj => xn (ii * side + jj) ch
    let u1 := m.interp2x (m.decode_head0 x2)
    let u2 := m.interp2x (m.decode_head1 u1)
    let u3 := m.interp2x (m.decode_head2 u2)
    let u4 := m.interp2x (m.decode_head3 u3)
    u4 0 i j

/-- Source: `forward_decoder(self, x, y_, shot_num)` (lines 170-238).  `B` is
`y_.shape[1]` (the batch extent) and `M` is `y_.shape[0]` after the
transpose (the number of shots present in the crop tensor). -/
def forward_decoder (m : SupervisedMAE) (x : ℕ → TokT)
    (y_ : ℕ → ℕ → ImgT) (B M shot_num : ℕ) : ℕ → ℕ → ℕ → ℚ :=
  decoderTail m x (exemplarY m y_ B M shot_num)

/-- Source: `forward_encoder(self, x)` (lines 156-168): patch embedding, the frozen
positional embedding, the self-attention blocks, the final norm. -/
def forward_encoder (m : SupervisedMAE) (imgs : ℕ → ImgT) : ℕ → TokT :=
  fun n =>
    let x0 := m.patch_embed (imgs n)
    let x1 : TokT := fun t c => x0 t c + m.pos_embed t c
    let x2 := m.blocks.foldl (fun acc blk => blk acc) x1
    fun t c => m.norm (fun c0 => x2 t c0) c

/-- Source: `forward(self, imgs, boxes, shot_num)` (lines 240-246). -/
def forward (m : SupervisedMAE) (imgs : ℕ → ImgT) (boxes : ℕ → ℕ → ImgT)
    (B M shot_num : ℕ) : ℕ → ℕ → ℕ → ℚ :=
  forward_decoder m (forward_encoder m imgs) boxes B M shot_num

/-- The `forward` method performs no assignment to any module attribute:
as a state transformer it returns the density map and the unchanged
module. -/
def forwardStateful (m : SupervisedMAE) (imgs : ℕ → ImgT)
    (boxes : ℕ → ℕ → ImgT) (B M shot_num : ℕ) :
    (ℕ → ℕ → ℕ → ℚ) × SupervisedMAE :=
  (forward m imgs boxes B M shot_num, m)

/-! ## Construction (`__init__` + `initialize_weights`) -/

/-- Modelled from the spec: the sinusoidal positional-embedding generator
`get_2d_sincos_pos_embed` lives in `util/pos_embed.py`, which is not under
`src/`; per spec section 2 it is an external "Positional Embedding
Provider" producing fixed sin-cos encodings, a pure function of the
embedding width and the token grid side.  It is modelled as an arbitrary
deterministic function `(embed_dim, grid_side, position, channel) ↦`
value. -/
def PosEmbedGen : Type := ℕ → ℕ → ℕ → ℕ → ℚ

/-- The trainable / externally supplied state that `__init__` creates
before `initialize_weights` runs: every submodule function and the
`shot_token` initialization. -/
structure Params where
  shot_token : ℕ → ℚ
  patch_embed : ImgT → TokT
  blocks : List (TokT → TokT)
  norm : (ℕ → ℚ) → (ℕ → ℚ)
  decoder_embed : (ℕ → ℚ) → (ℕ → ℚ)
  decoder_proj1 : ImgT → ImgT
  decoder_proj2 : ImgT → ImgT
  decoder_proj3 : ImgT → ImgT
  decoder_proj4 : ImgT → ImgT
  decoder_proj_final : ImgT → ImgT
  decoder_blocks : List (TokT → TokT → TokT)
  exemplar_blocks : List (TokT → TokT × AttnT)
  exemplar_weights : (ℕ → ℚ) → ℚ
  decoder_norm : (ℕ → ℚ) → (ℕ → ℚ)
  exemplar_norm : (ℕ → ℚ) → (ℕ → ℚ)
  decode_head0 : ImgT → ImgT
  decode_head1 : ImgT → ImgT
  decode_head2 : ImgT → ImgT
  decode_head3 : ImgT → ImgT
  interp2x : ImgT → ImgT

/-- Construction of a `SupervisedMAE` (`__init__`, lines 19-126, followed
by `initialize_weights`, lines 128-144): the two positional embeddings are
filled exactly once from the external sin-cos generator evaluated at
(`embed_dim` resp. `decoder_embed_dim`, `int(num_patches ** .5)`); every
other field comes from the construction-time parameter state `p`. -/
def mkSupervisedMAE (gen : PosEmbedGen) (cfg : Config) (p : Params) :
    SupervisedMAE :=
  { num_patches := numPatchesCfg cfg
    decoder_depth := cfg.decoder_depth
    decoder_num_heads := cfg.decoder_num_heads
    pos_embed := fun t c =>
      gen cfg.embed_dim (Nat.sqrt (numPatchesCfg cfg)) t c
    decoder_pos_embed := fun t c =>
      gen cfg.decoder_embed_dim (Nat.sqrt (numPatchesCfg cfg)) t c
    shot_token := p.shot_token
    patch_embed := p.patch_embed
    blocks := p.blocks
    norm := p.norm
    decoder_embed := p.decoder_embed
    decoder_proj1 := p.decoder_proj1
    decoder_proj2 := p.decoder_proj2
    decoder_proj3 := p.decoder_proj3
    decoder_proj4 := p.decoder_proj4
    decoder_proj_final := p.decoder_proj_final
    decoder_blocks := p.decoder_blocks
    exemplar_blocks := p.exemplar_blocks
    exemplar_weights := p.exemplar_weights
    decoder_norm := p.decoder_norm
    exemplar_norm := p.exemplar_norm
    decode_head0 := p.decode_head0
    decode_head1 := p.decode_head1
    decode_head2 := p.decode_head2
    decode_head3 := p.decode_head3
    interp2x := p.interp2x }

/-! ## A concrete test instance -/

/-- A concrete model instance with identity-like submodules: the CNN
stages and norms are identities, a single exemplar block returns its
input with an all-zero attention tensor, and the gate is the constant
`1/2` (realizable as the sigmoid of an all-zero linear stack). -/
def testModel : SupervisedMAE :=
  { num_patches := 576
    decoder_depth := 0
    decoder_num_heads := 16
    pos_embed := fun _ _ => 0
    decoder_pos_embed := fun _ _ => 0
    shot_token := fun _ => 0
    patch_embed := fun _ => fun _ _ => 0
    blocks := []
    norm := id
    decoder_embed := id
    decoder_proj1 := id
    decoder_proj2 := id
    decoder_proj3 := id
    decoder_proj4 := id
    decoder_proj_final := id
    decoder_blocks := []
    exemplar_blocks := [fun y => (y, fun _ _ _ => 0)]
    exemplar_weights := fun _ => 1 / 2
    decoder_norm := id
    exemplar_norm := id
    decode_head0 := id
    decode_head1 := id
    decode_head2 := id
    decode_head3 := id
    interp2x := id }

/-- Concrete crops: batch item `n`, shot `s` is the constant image with
value `2*n + s`, so every processed shot is identifiable. -/
def cexCrops : ℕ → ℕ → ImgT := fun n s => fun _ _ _ => (2 * n + s : ℚ)

/-! ## Real-valued model of the `exemplar_weights` gate

The gate (lines 88-94) is four `nn.Linear` layers
(`8*8*decoder_num_heads → 256 → 64 → 16 → 1`) followed by `nn.Sigmoid`.
Its output feeds the weighted pooling of lines 203-207.  Scalars are `ℝ`
here because the sigmoid needs the exponential. -/

/-- Source: `nn.Sigmoid`: `x ↦ 1 / (1 + exp (-x))`. -/
noncomputable def sigmoidR (x : ℝ) : ℝ := 1 / (1 + Real.exp (-x))

/-- Source: `nn.Linear` over `ℝ` on the last axis: output `o` is
`∑ i < inDim, W o i * v i + b o`. -/
def linearR (W : ℕ → ℕ → ℝ) (b : ℕ → ℝ) (inDim : ℕ) (v : ℕ → ℝ) : ℕ → ℝ :=
  fun o => (∑ i ∈ Finset.range inDim, W o i * v i) + b o

/-- The weights and biases of the four linear layers of
`self.exemplar_weights`, and the head count fixing the input width. -/
structure ExemplarWeightsParams where
  heads : ℕ
  W1 : ℕ → ℕ → ℝ
  b1 : ℕ → ℝ
  W2 : ℕ → ℕ → ℝ
  b2 : ℕ → ℝ
  W3 : ℕ → ℕ → ℝ
  b3 : ℕ → ℝ
  W4 : ℕ → ℕ → ℝ
  b4 : ℕ → ℝ

/-- Source: `self.exemplar_weights` applied to one summary vector: the four linear
layers (widths `heads*64 → 256 → 64 → 16 → 1`) and the final sigmoid on
the single output feature. -/
noncomputable def exemplarWeightsApply (p : ExemplarWeightsParams) (v : ℕ → ℝ) : ℝ :=
  sigmoidR
    (linearR p.W4 p.b4 16
      (linearR p.W3 p.b3 64
        (linearR p.W2 p.b2 256
          (linearR p.W1 p.b1 (p.heads * 64) v))) 0)

/-- Line 203's `.mean(dim=0)`: the per-token weight is the mean over the
`L` exemplar layers of the gate outputs on that token's summaries. -/
noncomputable def tokenGateWeightR (p : ExemplarWeightsParams) (L : ℕ)
    (layerInput : ℕ → (ℕ → ℝ)) : ℝ :=
  (∑ l ∈ Finset.range L, exemplarWeightsApply p (layerInput l)) / (L : ℝ)

/-- Line 206's `attns.reshape(N*shot_num, 8*8).sum(dim=1)`: one shot's sum
of the 64 per-cell gate weights (`cellInput cell` holds the per-layer
summaries of grid cell `cell`). -/
noncomputable def shotWeightSumR (p : ExemplarWeightsParams) (L : ℕ)
    (cellInput : ℕ → ℕ → (ℕ → ℝ)) : ℝ :=
  ∑ cell ∈ Finset.range 64, tokenGateWeightR p L (cellInput cell)

/-- Crops that agree with `cexCrops` on shot 0 and differ everywhere
beyond it. -/
def cexCropsAlt : ℕ → ℕ → ImgT :=
  fun n s => if s < 1 then cexCrops n s else fun _ _ _ => 99

/-- An all-zero attention tensor. -/
def zeroAttn : AttnT := fun _ _ _ => 0

/-- Gate parameters with all-zero weights and biases, 16 heads. -/
def zeroGateParams : ExemplarWeightsParams :=
  { heads := 16, W1 := fun _ _ => 0, b1 := fun _ => 0, W2 := fun _ _ => 0,
    b2 := fun _ => 0, W3 := fun _ _ => 0, b3 := fun _ => 0,
    W4 := fun _ _ => 0, b4 := fun _ => 0 }

/-! ## Helper lemmas -/

/-- The factory configuration has a 24x24 decoder token grid. -/
lemma sqrtNumPatchesFactory :
    Nat.sqrt (numPatchesCfg mae_vit_base_patch16_dec512d8b) = 24 := by
  have h : numPatchesCfg mae_vit_base_patch16_dec512d8b = 24 ^ 2 := by decide
  rw [h, Nat.sqrt_eq']

/-- On `testModel` every gate weight is the constant `1/2`. -/
lemma gateWeightTest (S : ℕ) (y0 : ℕ → TokT) (n q : ℕ) :
    gateWeight testModel S y0 n q = 1 / 2 := by
  simp [gateWeight, y1Attns, blocksIter, testModel]

/-- On `testModel` every per-row gate weight sum is `64 * (1/2) = 32`. -/
lemma weightRowSumTest (S : ℕ) (y0 : ℕ → TokT) (r : ℕ) :
    weightRowSum testModel S y0 r = 32 := by
  simp [weightRowSum, gateWeightTest, Finset.sum_const]
  norm_num

/-- The single identity exemplar block of `testModel` leaves tokens
unchanged. -/
lemma y1AfterTest (y0 : ℕ → TokT) : y1After testModel y0 = y0 := by
  funext n
  simp [y1After, blocksIter, testModel]

/-- On `testModel` with `cexCrops`, `B = 2` and `shot_num = 2`, row `r` of
the renormalized pooled tensor carries exactly the crop value
`2 * (r / 2) + r % 2 = r` of batch item `r / 2`, shot `r % 2`. -/
lemma renormRowTest (r c : ℕ) :
    renormRow testModel 2 (y1init testModel cexCrops 2 2) r c = (r : ℚ) := by
  have hp : pooledRow testModel 2 (y1init testModel cexCrops 2 2) r c
      = (r : ℚ) / 2 := by
    rw [pooledRow]
    have hcell : ∀ cell ∈ Finset.range 64,
        weightedY1 testModel 2 (y1init testModel cexCrops 2 2) (r / 2)
          ((r % 2) * 64 + cell) c = (r : ℚ) / 2 := by
      intro cell hc
      have hc64 : cell < 64 := Finset.mem_range.mp hc
      have h1 : (r % 2) * 64 + cell < min 2 2 * 64 := by omega
      have h2 : ((r % 2) * 64 + cell) / 64 = r % 2 := by omega
      rw [weightedY1, gateWeightTest, normedY1, y1AfterTest]
      show 1 / 2 * (testModel.exemplar_norm
        (fun c0 => y1init testModel cexCrops 2 2 (r / 2) ((r % 2) * 64 + cell) c0) c) = _
      rw [show testModel.exemplar_norm = id from rfl]
      simp only [id, y1init, if_pos h1, h2, projShot, cexCrops]
      rw [show testModel.decoder_proj_final = id from rfl,
        show testModel.decoder_proj3 = id from rfl,
        show testModel.decoder_proj2 = id from rfl,
        show testModel.decoder_proj1 = id from rfl]
      simp only [id, cexCrops]
      have hr : 2 * (r / 2) + r % 2 = r := by omega
      have hrq : 2 * ((r / 2 : ℕ) : ℚ) + ((r % 2 : ℕ) : ℚ) = (r : ℚ) := by
        exact_mod_cast hr
      rw [hrq]
      ring
    rw [Finset.sum_congr rfl hcell, Finset.sum_const, Finset.card_range]
    ring
  rw [renormRow, hp, weightRowSumTest]
  ring

/-! ## Claim theorems -/

set_option maxRecDepth 4000 in
/-- Claim C1: for the factory configuration (patch 16, encoder 768/12/12,
decoder 512/8/16, 4 exemplar cross blocks) and any batch of `(B, 3, 384,
384)` images, `forward` returns a `(B, 384, 384)` density map: the 24x24
decoder token grid passes through the four regression-head stages, each
followed by a 2x bilinear upsampling (a 16x spatial increase,
`16 * 24 = 384`), and the singleton channel dimension is squeezed away. -/
theorem c1_factory_output_shape (B : ℕ) :
    forwardShape mae_vit_base_patch16_dec512d8b B = some [B, 384, 384]
    ∧ Nat.sqrt (numPatchesCfg mae_vit_base_patch16_dec512d8b) = 24
    ∧ (384 : ℕ) = 16 * 24 := by
  refine ⟨?_, sqrtNumPatchesFactory, by norm_num⟩
  simp only [forwardShape, sqrtNumPatchesFactory]
  rfl

/-- Claim C2: with `shot_num = 0` the density map does not depend on the
exemplar crop contents — two forward calls differing only in the crop
values return identical outputs — because the shot loop is bypassed and
the decoder receives one broadcast copy of the learned `shot_token`
fallback per batch item (shot extent 1). -/
theorem c2_shot0_crop_independence (m : SupervisedMAE) (imgs : ℕ → ImgT)
    (crops crops' : ℕ → ℕ → ImgT) (B M : ℕ) :
    forward m imgs crops B M 0 = forward m imgs crops' B M 0
    ∧ exemplarY m crops B M 0
      = fun _n s c => if s < 1 then m.shot_token c else 0 :=
  ⟨rfl, rfl⟩

/-- Claim C3: for `1 ≤ shot_num ≤ max_shots`, two forward calls whose
crops agree on the first `shot_num` shots (for every batch item) return
identical density maps: the loop processes exactly the first `shot_num`
shots and never reads the remaining ones. -/
theorem c3_unused_shots_ignored (m : SupervisedMAE) (imgs : ℕ → ImgT)
    (crops crops' : ℕ → ℕ → ImgT) (B M S : ℕ)
    (_hS : 1 ≤ S) (_hSM : S ≤ M)
    (h : ∀ n s, s < S → crops n s = crops' n s) :
    forward m imgs crops B M S = forward m imgs crops' B M S := by
  have hy : y1init m crops M S = y1init m crops' M S := by
    funext n t c
    simp only [y1init]
    split_ifs with ht
    · have hmin : min S M ≤ S := Nat.min_le_left S M
      have hs : t / 64 < S := by omega
      rw [h n (t / 64) hs]
    · rfl
  simp only [forward, forward_decoder, exemplarY, hy]

/-- Witness for C3 at `B = 2`, `M = 2`, `shot_num = 1`, with crops that
differ at every shot index beyond 0. -/
theorem c3_unused_shots_ignored_witness :
    ((1 : ℕ) ≤ 1 ∧ (1 : ℕ) ≤ 2
      ∧ (∀ n s, s < 1 → cexCropsAlt n s = cexCrops n s))
    ∧ forward testModel (fun _ => fun _ _ _ => 0) cexCropsAlt 2 2 1
      = forward testModel (fun _ => fun _ _ _ => 0) cexCrops 2 2 1 := by
  have hag : ∀ n s, s < 1 → cexCropsAlt n s = cexCrops n s := by
    intro n s hs
    simp [cexCropsAlt, hs]
  exact ⟨⟨le_refl 1, by norm_num, hag⟩,
    c3_unused_shots_ignored testModel (fun _ => fun _ _ _ => 0) cexCropsAlt cexCrops
      2 2 1 (le_refl 1) (by norm_num) hag⟩

/-- Claim C4 is false on the code: with `B = 2`, `shot_num = 2` and
crops whose processed value identifies batch and shot (`crop[n][s] ≡
2n + s`), the decoder token at batch 0, shot 1 carries the value `2` —
row `s*B + n = 2` of the pooled tensor, which is batch item 1's shot 0 —
while the pooled, renormalized embedding of batch item 0's shot 1 is row
`n*shot_num + s = 1` with value `1`: the `reshape(shot_num, N, C)` of the
batch-major `(N*shot_num, C)` pooled tensor followed by `transpose(0, 1)`
scrambles the batch/shot correspondence. -/
theorem c4_reshape_scrambles_correspondence :
    exemplarY testModel cexCrops 2 2 2 0 1 0 = 2
    ∧ renormRow testModel 2 (y1init testModel cexCrops 2 2) (0 * 2 + 1) 0 = 1
    ∧ exemplarY testModel cexCrops 2 2 2 0 1 0
      ≠ renormRow testModel 2 (y1init testModel cexCrops 2 2) (0 * 2 + 1) 0 := by
  refine ⟨?_, ?_, ?_⟩
  · simp [exemplarY, renormRowTest]
  · simp [renormRowTest]
  · simp [exemplarY, renormRowTest]

/-- Claim C5: the renormalization of lines 206-207 turns the weighted-sum
pooling into a proper weighted mean: the 64-cell average of the
weight-times-token products, times the cell count 64, times the
reciprocal of the per-shot weight sum, equals the sum of `weight * token`
divided by the sum of the weights. -/
theorem c5_weighted_mean (m : SupervisedMAE) (S : ℕ) (y0 : ℕ → TokT) (r c : ℕ)
    (_h : weightRowSum m S y0 r ≠ 0) :
    renormRow m S y0 r c
      = (∑ cell ∈ Finset.range 64,
          gateWeight m S y0 (r / S) ((r % S) * 64 + cell)
            * normedY1 m y0 (r / S) ((r % S) * 64 + cell) c)
        / weightRowSum m S y0 r := by
  rw [renormRow, pooledRow]
  simp only [weightedY1]
  rw [div_mul_cancel₀ _ (by norm_num : (64 : ℚ) ≠ 0), mul_one_div]

/-- Witness for C5 on `testModel`, where the per-row weight sum is 32. -/
theorem c5_weighted_mean_witness :
    weightRowSum testModel 2 (y1init testModel cexCrops 2 2) 0 ≠ 0
    ∧ renormRow testModel 2 (y1init testModel cexCrops 2 2) 0 0
      = (∑ cell ∈ Finset.range 64,
          gateWeight testModel 2 (y1init testModel cexCrops 2 2) (0 / 2)
            ((0 % 2) * 64 + cell)
            * normedY1 testModel (y1init testModel cexCrops 2 2) (0 / 2)
                ((0 % 2) * 64 + cell) 0)
        / weightRowSum testModel 2 (y1init testModel cexCrops 2 2) 0 := by
  have hW : weightRowSum testModel 2 (y1init testModel cexCrops 2 2) 0 ≠ 0 := by
    rw [weightRowSumTest]
    norm_num
  exact ⟨hW, c5_weighted_mean testModel 2 (y1init testModel cexCrops 2 2) 0 0 hW⟩

/-- Claim C6 as stated is false: for the factory head count 16 and one
shot, the per-layer summary produced by line 201 has last extent
`16 * 64 = 1024`, not `16`: the claimed shape `(batch, shot_num*64,
heads)` does not match the code's `(batch, shot_num*64, heads*64)`. -/
theorem c6_summary_shape_counterexample :
    attnSummaryShape 1 16 (1 * 64) (1 * 64) 1 = some [1, 1 * 64, 16 * 64]
    ∧ attnSummaryShape 1 16 (1 * 64) (1 * 64) 1 ≠ some [1, 1 * 64, 16] := by
  exact ⟨by decide, by decide⟩

/-- Claim C6, amended: the captured `(batch, heads, query, key)` score
tensor is reduced by averaging, per query token and head, the scores over
the key tokens at the same spatial position across shots (the shot
dimension), and the per-layer summary has shape `(batch, shot_num*64,
heads*64)` — per query token, per head, 64 shot-averaged scores. -/
theorem c6_summary_shape_amended (B H S : ℕ) (a : AttnT) (q h ck : ℕ)
    (hh : h < H) (hck : ck < 64) :
    attnSummaryShape B H (S * 64) (S * 64) S = some [B, S * 64, H * 64]
    ∧ layerSummary H S a q (h * 64 + ck)
      = (∑ sk ∈ Finset.range S, a h q (sk * 64 + ck)) / (S : ℚ) := by
  constructor
  · simp [attnSummaryShape]
  · have h1 : h * 64 + ck < H * 64 := by omega
    have h2 : (h * 64 + ck) / 64 = h := by omega
    have h3 : (h * 64 + ck) % 64 = ck := by omega
    rw [layerSummary, if_pos h1, h2, h3]

/-- Witness for the amended C6 at the factory head count. -/
theorem c6_summary_shape_amended_witness :
    ((0 : ℕ) < 16 ∧ (0 : ℕ) < 64)
    ∧ attnSummaryShape 1 16 (1 * 64) (1 * 64) 1 = some [1, 1 * 64, 16 * 64]
    ∧ layerSummary 16 1 zeroAttn 0 (0 * 64 + 0)
      = (∑ sk ∈ Finset.range 1, zeroAttn 0 0 (sk * 64 + 0)) / (1 : ℚ) := by
  have h := c6_summary_shape_amended 1 16 1 zeroAttn 0 0 0 (by norm_num) (by norm_num)
  exact ⟨⟨by norm_num, by norm_num⟩, h.1, h.2⟩

/-- Claim C7: both positional embeddings are computed exactly once at
construction from the deterministic external sin-cos generator — two
instances built from the same configuration (whatever their trainable
initialization) hold identical embeddings, equal to the generator's
closed form — and `forward` mutates no module state, so both embeddings
are unchanged by any forward pass. -/
theorem c7_pos_embed_frozen (gen : PosEmbedGen) (cfg : Config) (p1 p2 : Params)
    (m : SupervisedMAE) (imgs : ℕ → ImgT) (boxes : ℕ → ℕ → ImgT) (B M S : ℕ) :
    (mkSupervisedMAE gen cfg p1).pos_embed = (mkSupervisedMAE gen cfg p2).pos_embed
    ∧ (mkSupervisedMAE gen cfg p1).decoder_pos_embed
      = (mkSupervisedMAE gen cfg p2).decoder_pos_embed
    ∧ (mkSupervisedMAE gen cfg p1).pos_embed
      = (fun t c => gen cfg.embed_dim (Nat.sqrt (numPatchesCfg cfg)) t c)
    ∧ (forwardStateful m imgs boxes B M S).2.pos_embed = m.pos_embed
    ∧ (forwardStateful m imgs boxes B M S).2.decoder_pos_embed
      = m.decoder_pos_embed :=
  ⟨rfl, rfl, rfl, rfl, rfl⟩

/-- Claim C8: `decoder_proj4` is constructed but never invoked on the
forward path — the output of `forward` is unchanged under replacing the
`decoder_proj4` submodule by any other function, since the exemplar path
applies only `decoder_proj1`, `decoder_proj2`, `decoder_proj3` and
`decoder_proj_final`. -/
theorem c8_decoder_proj4_dead (m : SupervisedMAE) (f : ImgT → ImgT)
    (imgs : ℕ → ImgT) (boxes : ℕ → ℕ → ImgT) (B M S : ℕ) :
    forward { m with decoder_proj4 := f } imgs boxes B M S
      = forward m imgs boxes B M S :=
  rfl

/-- Claim C9: the exemplar pathway hard-codes width 512 (the `shot_token`,
the exemplar blocks, `exemplar_norm`, the pooling reshape), so the width
checks of `forward_decoder` succeed exactly when `decoder_embed_dim =
512`, for every batch extent and every `shot_num` including 0. -/
theorem c9_width512_required (embed_dim d B S : ℕ) :
    (forwardDecoderWidthCheck embed_dim d B S).isSome ↔ d = 512 := by
  by_cases hd : d = 512
  · subst hd
    by_cases hS : 0 < S
    · simp [forwardDecoderWidthCheck, linearCheck, layerNormCheck, conv2dChanCheck,
        projChainCheck, shot_token_dim, exemplar_block_dim, exemplar_norm_dim,
        pool_reshape_dim, hS, Nat.mul_comm]
    · simp [forwardDecoderWidthCheck, linearCheck, layerNormCheck, conv2dChanCheck,
        projChainCheck, shot_token_dim, exemplar_block_dim, exemplar_norm_dim,
        pool_reshape_dim, hS]
  · by_cases hS : 0 < S
    · simp [forwardDecoderWidthCheck, linearCheck, layerNormCheck, conv2dChanCheck,
        projChainCheck, shot_token_dim, exemplar_block_dim, exemplar_norm_dim,
        pool_reshape_dim, hS, hd]
    · simp [forwardDecoderWidthCheck, linearCheck, layerNormCheck, conv2dChanCheck,
        projChainCheck, shot_token_dim, exemplar_block_dim, exemplar_norm_dim,
        pool_reshape_dim, hS, hd, Ne.symm hd]

/-- Claim C10: the gate ends in a sigmoid, so each per-token weight is
strictly between 0 and 1; hence the per-shot sum of the 64 cell weights
is strictly positive and its reciprocal in the renormalization step never
divides by zero. -/
theorem c10_gate_sigmoid_positive (p : ExemplarWeightsParams) (v : ℕ → ℝ)
    (L : ℕ) (cellInput : ℕ → ℕ → (ℕ → ℝ)) (hL : 1 ≤ L) :
    (0 < exemplarWeightsApply p v ∧ exemplarWeightsApply p v < 1)
    ∧ 0 < shotWeightSumR p L cellInput
    ∧ 1 / shotWeightSumR p L cellInput ≠ 0 := by
  have hsig : ∀ x : ℝ, 0 < sigmoidR x ∧ sigmoidR x < 1 := by
    intro x
    have hx : (0 : ℝ) < 1 + Real.exp (-x) := by positivity
    constructor
    · exact div_pos one_pos hx
    · rw [sigmoidR, div_lt_one hx]
      have h := Real.exp_pos (-x)
      linarith
  have hgw : ∀ w : ℕ → ℝ,
      0 < exemplarWeightsApply p w ∧ exemplarWeightsApply p w < 1 :=
    fun w => hsig _
  have htok : ∀ ci : ℕ → (ℕ → ℝ), 0 < tokenGateWeightR p L ci := by
    intro ci
    rw [tokenGateWeightR]
    apply div_pos
    · exact Finset.sum_pos (fun i _ => (hgw _).1)
        (Finset.nonempty_range_iff.mpr (by omega))
    · exact_mod_cast Nat.lt_of_lt_of_le Nat.zero_lt_one hL
  have hsum : 0 < shotWeightSumR p L cellInput := by
    rw [shotWeightSumR]
    exact Finset.sum_pos (fun i _ => htok _)
      (Finset.nonempty_range_iff.mpr (by norm_num))
  exact ⟨hgw v, hsum, one_div_ne_zero (ne_of_gt hsum)⟩

/-- Witness for C10 with the all-zero gate parameters and a single layer. -/
theorem c10_gate_sigmoid_positive_witness :
    (1 : ℕ) ≤ 1 ∧ 0 < shotWeightSumR zeroGateParams 1 (fun _ _ _ => 0) :=
  ⟨le_refl 1,
    (c10_gate_sigmoid_positive zeroGateParams (fun _ => 0) 1 (fun _ _ _ => 0)
      (le_refl 1)).2.1⟩

